import Mathlib

/-!
Verification of the batch-ETL pipeline scripts
(`collect_data.py`, `process_data.py`, `direct_processing.py`,
`prepare_for_visualization.py`).

Tables are embedded as lists of records, pandas groupby as
dedup/filter over those lists, and each script's try/except structure
as `Except`-valued bodies wrapped into boolean success flags.
-/

namespace BigDataPipeline

/-- A raw web-log record, as produced by `generate_web_logs` in
`collect_data.py` (the `user_id` field may be missing, i.e. NaN). -/
structure RawWebRow where
  timestamp : String
  ip_address : String
  user_id : Option String
  method : String
  endpoint : String
  status_code : Nat
  response_time : ℚ
  user_agent : String
  deriving DecidableEq

/-- A raw social-media record, as produced by `generate_social_data`. -/
structure RawSocialRow where
  post_id : String
  user_handle : String
  timestamp : String
  content : String
  likes : Nat
  shares : Nat
  comments : Nat
  sentiment : String
  category : String
  platform : String
  deriving DecidableEq

/-- A raw sensor record, as produced by `generate_sensor_data`
(`battery_level` is drawn from `random.randint(10, 100)`). -/
structure RawSensorRow where
  timestamp : String
  sensor_id : String
  sensor_type : String
  location : String
  value : ℚ
  battery_level : Nat
  status : String
  deriving DecidableEq

/-- Numeric value of a decimal digit character list (helper for the
timestamp and date parsers). -/
def digitsToNat (l : List Char) : Nat :=
  l.foldl (fun acc c => acc * 10 + (c.toNat - 48)) 0

/-- Parse a character list as a decimal number; `none` when some
character is not a digit. -/
def listToNat? (l : List Char) : Option Nat :=
  if l.all (fun c => 48 ≤ c.toNat && c.toNat ≤ 57) then
    some (digitsToNat l)
  else none

/-- Date part of a `%Y-%m-%d %H:%M:%S` timestamp (what
`df['timestamp'].dt.date` extracts after `pd.to_datetime`). -/
def parseDate (ts : String) : String := String.mk (ts.data.take 10)

/-- Hour part of a `%Y-%m-%d %H:%M:%S` timestamp (what
`df['timestamp'].dt.hour` extracts); `none` when the hour field is not
numeric, modelling a `pd.to_datetime` parse failure. -/
def parseHour (ts : String) : Option Nat :=
  listToNat? ((ts.data.drop 11).take 2)

/-- A processed web-log record: `process_web_logs` adds `date`, `hour`,
fills missing `user_id` with `'anonymous'` and adds
`is_error = status_code >= 400`. -/
structure ProcWebRow where
  timestamp : String
  ip_address : String
  user_id : String
  method : String
  endpoint : String
  status_code : Nat
  response_time : ℚ
  user_agent : String
  date : String
  hour : Nat
  is_error : Bool
  deriving DecidableEq

/-- Row transformation of `process_web_logs` (process_data.py lines
35-45): derive date/hour, fill missing `user_id` with `'anonymous'`,
set `is_error`. Fails (like `pd.to_datetime`) on an unparseable
timestamp. -/
def processWebRow (r : RawWebRow) : Option ProcWebRow := do
  let h ← parseHour r.timestamp
  some { timestamp := r.timestamp
         ip_address := r.ip_address
         user_id := r.user_id.getD "anonymous"
         method := r.method
         endpoint := r.endpoint
         status_code := r.status_code
         response_time := r.response_time
         user_agent := r.user_agent
         date := parseDate r.timestamp
         hour := h
         is_error := decide (400 ≤ r.status_code) }

/-- Sentiment map of `process_social_data`:
`{'positive': 1, 'neutral': 0, 'negative': -1}`; any other label maps
to `none` (pandas `.map` produces NaN there). -/
def sentimentScore (s : String) : Option Int :=
  if s = "positive" then some 1
  else if s = "neutral" then some 0
  else if s = "negative" then some (-1)
  else none

/-- A processed social record: `process_social_data` adds `date`,
`hour`, the weighted `engagement_score` and the `sentiment_score`. -/
structure ProcSocialRow where
  post_id : String
  user_handle : String
  timestamp : String
  content : String
  likes : Nat
  shares : Nat
  comments : Nat
  sentiment : String
  category : String
  platform : String
  date : String
  hour : Nat
  engagement_score : Nat
  sentiment_score : Option Int
  deriving DecidableEq

/-- Row transformation of `process_social_data` (process_data.py lines
74-85): derive date/hour, `engagement_score = likes + shares*2 +
comments*3`, map sentiment to a score. -/
def processSocialRow (r : RawSocialRow) : Option ProcSocialRow := do
  let h ← parseHour r.timestamp
  some { post_id := r.post_id
         user_handle := r.user_handle
         timestamp := r.timestamp
         content := r.content
         likes := r.likes
         shares := r.shares
         comments := r.comments
         sentiment := r.sentiment
         category := r.category
         platform := r.platform
         date := parseDate r.timestamp
         hour := h
         engagement_score := r.likes + r.shares * 2 + r.comments * 3
         sentiment_score := sentimentScore r.sentiment }

/-- Battery bucket of `process_sensor_data`: `pd.cut` with
`bins=[0, 20, 50, 80, 100]` and labels critical/low/medium/high.
`pd.cut` uses right-closed intervals `(0,20], (20,50], (50,80],
(80,100]`; values outside every bin become NaN (`none`). -/
def batteryCategory (b : Nat) : Option String :=
  if 0 < b ∧ b ≤ 20 then some "critical"
  else if 20 < b ∧ b ≤ 50 then some "low"
  else if 50 < b ∧ b ≤ 80 then some "medium"
  else if 80 < b ∧ b ≤ 100 then some "high"
  else none

/-- A processed sensor record: `process_sensor_data` adds `date`,
`hour`, `is_active` and the battery bucket. -/
structure ProcSensorRow where
  timestamp : String
  sensor_id : String
  sensor_type : String
  location : String
  value : ℚ
  battery_level : Nat
  status : String
  date : String
  hour : Nat
  is_active : Bool
  battery_category : Option String
  deriving DecidableEq

/-- Row transformation of `process_sensor_data` (process_data.py lines
110-124): derive date/hour, `is_active = (status == 'active')`, bucket
the battery level. -/
def processSensorRow (r : RawSensorRow) : Option ProcSensorRow := do
  let h ← parseHour r.timestamp
  some { timestamp := r.timestamp
         sensor_id := r.sensor_id
         sensor_type := r.sensor_type
         location := r.location
         value := r.value
         battery_level := r.battery_level
         status := r.status
         date := parseDate r.timestamp
         hour := h
         is_active := decide (r.status = "active")
         battery_category := batteryCategory r.battery_level }

/-- Mean of a list of rationals, as pandas `'mean'` aggregation over a
(nonempty) group; division by zero only arises for an empty group,
which `groupby` never produces. -/
def qmean (l : List ℚ) : ℚ := l.sum / l.length

/-- Mean of an optional-int column, as pandas `'mean'` with its default
NaN-skipping behaviour. -/
def optMean (l : List (Option Int)) : ℚ :=
  qmean ((l.filterMap id).map (fun z => (z : ℚ)))

/-- One row of the per-(date, endpoint) web traffic aggregate
(direct_processing.py lines 42-48, after the positional rename). -/
structure WebDailyRow where
  date : String
  endpoint : String
  total_requests : Nat
  error_count : Nat
  avg_response_time : ℚ
  unique_visitors : Nat
  deriving DecidableEq

/-- Distinct (date, endpoint) group keys of a processed web-log table,
in order of first occurrence. -/
def webEndpointKeys (df : List ProcWebRow) : List (String × String) :=
  (df.map (fun r => (r.date, r.endpoint))).dedup

/-- The group of rows of `df` with the given (date, endpoint) key. -/
def webEndpointGroup (df : List ProcWebRow) (k : String × String) :
    List ProcWebRow :=
  df.filter (fun r => r.date = k.1 ∧ r.endpoint = k.2)

/-- `web_traffic_daily`: groupby (date, endpoint) with
`status_code: count`, `is_error: sum`, `response_time: mean`,
`ip_address: nunique`, renamed to total_requests / error_count /
avg_response_time / unique_visitors. -/
def webTrafficDaily (df : List ProcWebRow) : List WebDailyRow :=
  (webEndpointKeys df).map (fun k =>
    let g := webEndpointGroup df k
    { date := k.1
      endpoint := k.2
      total_requests := g.length
      error_count := (g.filter (fun r => r.is_error)).length
      avg_response_time := qmean (g.map (fun r => r.response_time))
      unique_visitors := (g.map (fun r => r.ip_address)).dedup.length })

/-- One row of the per-date web traffic summary `web_daily`
(direct_processing.py lines 84-89). -/
structure WebDateRow where
  date : String
  total_requests : Nat
  error_count : Nat
  avg_response_time : ℚ
  deriving DecidableEq

/-- `web_daily`: groupby date with `status_code: count`,
`is_error: sum`, `response_time: mean`. -/
def webDaily (df : List ProcWebRow) : List WebDateRow :=
  ((df.map (fun r => r.date)).dedup).map (fun d =>
    let g := df.filter (fun r => r.date = d)
    { date := d
      total_requests := g.length
      error_count := (g.filter (fun r => r.is_error)).length
      avg_response_time := qmean (g.map (fun r => r.response_time)) })

/-- One row of the per-date social summary `social_daily`
(direct_processing.py lines 92-101). -/
structure SocialDateRow where
  date : String
  post_count : Nat
  total_likes : Nat
  total_shares : Nat
  total_comments : Nat
  avg_engagement : ℚ
  avg_sentiment : ℚ
  deriving DecidableEq

/-- `social_daily`: groupby date with `post_id: count`, sums of
likes/shares/comments, means of engagement_score/sentiment_score. -/
def socialDaily (df : List ProcSocialRow) : List SocialDateRow :=
  ((df.map (fun r => r.date)).dedup).map (fun d =>
    let g := df.filter (fun r => r.date = d)
    { date := d
      post_count := g.length
      total_likes := (g.map (fun r => r.likes)).sum
      total_shares := (g.map (fun r => r.shares)).sum
      total_comments := (g.map (fun r => r.comments)).sum
      avg_engagement := qmean (g.map (fun r => (r.engagement_score : ℚ)))
      avg_sentiment := optMean (g.map (fun r => r.sentiment_score)) })

/-- One row of the traffic/social correlation table
(direct_processing.py lines 104-120): the web columns followed by the
social columns, joined on `date`. -/
structure CorrRow where
  date : String
  total_requests : Nat
  error_count : Nat
  avg_response_time : ℚ
  post_count : Nat
  total_likes : Nat
  total_shares : Nat
  total_comments : Nat
  avg_engagement : ℚ
  avg_sentiment : ℚ
  deriving DecidableEq

/-- Combine one web-daily row and one social-daily row sharing a date
into a correlation row. -/
def mkCorr (w : WebDateRow) (s : SocialDateRow) : CorrRow :=
  { date := w.date
    total_requests := w.total_requests
    error_count := w.error_count
    avg_response_time := w.avg_response_time
    post_count := s.post_count
    total_likes := s.total_likes
    total_shares := s.total_shares
    total_comments := s.total_comments
    avg_engagement := s.avg_engagement
    avg_sentiment := s.avg_sentiment }

/-- `pd.merge(web_daily, social_daily, on='date')`: the inner join on
date, one output row per matching pair, in left-table order. -/
def mergeOnDate (w : List WebDateRow) (s : List SocialDateRow) :
    List CorrRow :=
  w.flatMap (fun wr =>
    (s.filter (fun sr => sr.date = wr.date)).map (fun sr => mkCorr wr sr))

/-- The dummy correlation table built in the `except` branch when the
merge raises (direct_processing.py lines 109-120): web columns copied
from `web_daily`, social columns filled with the constants
100/500/200/300/50/0.5. -/
def fallbackCorrelation (w : List WebDateRow) : List CorrRow :=
  w.map (fun wr =>
    { date := wr.date
      total_requests := wr.total_requests
      error_count := wr.error_count
      avg_response_time := wr.avg_response_time
      post_count := 100
      total_likes := 500
      total_shares := 200
      total_comments := 300
      avg_engagement := 50
      avg_sentiment := 1/2 })

/-- The try/except around the correlation join: the merge result if it
succeeded, the dummy table otherwise. `mergeResult` abstracts the
outcome of the `pd.merge` call. -/
def correlationStep (w : List WebDateRow)
    (mergeResult : Except String (List CorrRow)) : List CorrRow :=
  match mergeResult with
  | .ok t => t
  | .error _ => fallbackCorrelation w

/-! ### Headerless export files and the visualization loader's column
lists (direct_processing.py lines 133-137, prepare_for_visualization.py
lines 46-71) -/

/-- The five aggregate types exported by `process_data_directly`, one
per `data/exports/<name>/000000_0` file. -/
inductive AggType
  | webTrafficByEndpoint
  | webTrafficHourly
  | socialEngagement
  | sensorReadings
  | correlationData
  deriving DecidableEq

/-- The column list of the dataframe written for each aggregate, as
assigned by the positional `.columns =` renames in
direct_processing.py (for the sensor aggregate, including the
`error_readings` column appended on line 80; for the correlation
aggregate, the merge/fallback column order). -/
def writtenColumns : AggType → List String
  | .webTrafficByEndpoint =>
      ["date", "endpoint", "total_requests", "error_count",
       "avg_response_time", "unique_visitors"]
  | .webTrafficHourly =>
      ["date", "hour", "total_requests", "error_count",
       "avg_response_time"]
  | .socialEngagement =>
      ["date", "platform", "category", "post_count", "total_likes",
       "total_shares", "total_comments", "avg_engagement",
       "avg_sentiment"]
  | .sensorReadings =>
      ["date", "sensor_type", "location", "reading_count", "avg_value",
       "min_value", "max_value", "active_readings", "error_readings"]
  | .correlationData =>
      ["date", "total_requests", "error_count", "avg_response_time",
       "post_count", "total_likes", "total_shares", "total_comments",
       "avg_engagement", "avg_sentiment"]

/-- The hardcoded column-name list `load_data` attaches when reading
each export path back (prepare_for_visualization.py lines 48-60). -/
def loadCols : AggType → List String
  | .webTrafficByEndpoint =>
      ["date", "endpoint", "total_requests", "error_count",
       "avg_response_time", "unique_visitors"]
  | .webTrafficHourly =>
      ["date", "hour", "total_requests", "error_count",
       "avg_response_time"]
  | .socialEngagement =>
      ["date", "platform", "category", "post_count", "total_likes",
       "total_shares", "total_comments", "avg_engagement",
       "avg_sentiment"]
  | .sensorReadings =>
      ["date", "sensor_type", "location", "reading_count", "avg_value",
       "min_value", "max_value", "active_readings", "error_readings"]
  | .correlationData =>
      ["date", "total_requests", "error_count", "avg_response_time",
       "post_count", "total_likes", "total_shares", "total_comments",
       "avg_engagement", "avg_sentiment"]

/-- A dataframe at the file boundary: a column list and one list of
cell texts per row. -/
structure Table where
  cols : List String
  rows : List (List String)
  deriving DecidableEq

/-- `df.to_csv(..., index=False, header=False)`: the written file is
the row data with the column names dropped. -/
def toHeaderlessFile (t : Table) : List (List String) := t.rows

/-- `pd.read_csv(full_path, header=None, names=cols)`: every file line
becomes a data row and `cols` becomes the column list. -/
def readWithNames (names : List String) (file : List (List String)) :
    Table :=
  { cols := names, rows := file }

/-! ### The processing script's main sequence (process_data.py lines
180-194) -/

/-- Whole-function body of `process_web_logs`: the file read (given as
an `Except`, `error` for a missing or unreadable input) followed by the
row transformations; any failure propagates to the enclosing
try/except. -/
def processWebLogsBody (input : Except String (List RawWebRow)) :
    Except String (List ProcWebRow) :=
  match input with
  | .error e => .error e
  | .ok raw =>
    match raw.mapM processWebRow with
    | some rows => .ok rows
    | none => .error "to_datetime: unparseable timestamp"

/-- Whole-function body of `process_social_data`. -/
def processSocialBody (input : Except String (List RawSocialRow)) :
    Except String (List ProcSocialRow) :=
  match input with
  | .error e => .error e
  | .ok raw =>
    match raw.mapM processSocialRow with
    | some rows => .ok rows
    | none => .error "to_datetime: unparseable timestamp"

/-- Whole-function body of `process_sensor_data`. -/
def processSensorBody (input : Except String (List RawSensorRow)) :
    Except String (List ProcSensorRow) :=
  match input with
  | .error e => .error e
  | .ok raw =>
    match raw.mapM processSensorRow with
    | some rows => .ok rows
    | none => .error "to_datetime: unparseable timestamp"

/-- `process_web_logs`: the body wrapped in try/except — `True` on
success, print-and-`False` on any exception. -/
def process_web_logs (input : Except String (List RawWebRow)) : Bool :=
  match processWebLogsBody input with
  | .ok _ => true
  | .error _ => false

/-- `process_social_data`: try/except wrapper returning a flag. -/
def process_social_data (input : Except String (List RawSocialRow)) :
    Bool :=
  match processSocialBody input with
  | .ok _ => true
  | .error _ => false

/-- `process_sensor_data`: try/except wrapper returning a flag. -/
def process_sensor_data (input : Except String (List RawSensorRow)) :
    Bool :=
  match processSensorBody input with
  | .ok _ => true
  | .error _ => false

/-- The observable steps of the `__main__` block of process_data.py. -/
inductive Step
  | webLogs
  | social
  | sensor
  | upload
  | skipMsg
  deriving DecidableEq

/-- The inputs a run of process_data.py can encounter: the three raw
dataset reads (each possibly failing). -/
structure PipelineInput where
  webInput : Except String (List RawWebRow)
  socialInput : Except String (List RawSocialRow)
  sensorInput : Except String (List RawSensorRow)

/-- The `__main__` block (process_data.py lines 180-194): run the three
per-dataset functions unconditionally, then either call
`upload_to_hdfs` (all three flags true) or print the skip message. -/
def mainTrace (inp : PipelineInput) : List Step :=
  let w := process_web_logs inp.webInput
  let s := process_social_data inp.socialInput
  let se := process_sensor_data inp.sensorInput
  [Step.webLogs, Step.social, Step.sensor] ++
    (if w && s && se then [Step.upload] else [Step.skipMsg])

/-! ### The visualization preparer (prepare_for_visualization.py) -/

/-- Day-of-week index by Zeller's congruence (0 = Saturday). -/
def zeller (y m d : Nat) : Nat :=
  let m2 := if m < 3 then m + 12 else m
  let y2 := if m < 3 then y - 1 else y
  (d + (13 * (m2 + 1)) / 5 + y2 % 100 + y2 % 100 / 4 +
    y2 / 100 / 4 + 5 * (y2 / 100)) % 7

/-- `dt.day_name()` for a `YYYY-MM-DD` date cell. -/
def dayNameOf (ds : String) : String :=
  let y := ((ds.take 4).toNat?).getD 0
  let m := (((ds.drop 5).take 2).toNat?).getD 0
  let d := (((ds.drop 8).take 2).toNat?).getD 0
  match zeller y m d with
  | 0 => "Saturday"
  | 1 => "Sunday"
  | 2 => "Monday"
  | 3 => "Tuesday"
  | 4 => "Wednesday"
  | 5 => "Thursday"
  | _ => "Friday"

/-- The five derived calendar cells the preparer appends per row:
`date_str`, `year`, `month`, `day`, `day_of_week` (lines 98-102). -/
def dateDerived (ds : String) : List String :=
  [ds, toString (((ds.take 4).toNat?).getD 0),
   toString ((((ds.drop 5).take 2).toNat?).getD 0),
   toString ((((ds.drop 8).take 2).toNat?).getD 0), dayNameOf ds]

/-- The cell of row `r` under column `name` of the column list. -/
def cellAt (cols : List String) (name : String) (r : List String) :
    String :=
  r.getD (cols.indexOf name) ""

/-- Per-dataset mutation of the preparer's loop (lines 94-105): append
the five calendar columns when a `date` column exists, then append the
`dataset_type` column holding the dataset name. -/
def addDerived (name : String) (t : Table) : Table :=
  let t1 : Table :=
    if "date" ∈ t.cols then
      { cols := t.cols ++
          ["date_str", "year", "month", "day", "day_of_week"],
        rows := t.rows.map (fun r =>
          r ++ dateDerived (cellAt t.cols "date" r)) }
    else t
  { cols := t1.cols ++ ["dataset_type"],
    rows := t1.rows.map (fun r => r ++ [name]) }

/-- One entry of the JSON manifest's `datasets` map (lines 122-127). -/
structure ManifestEntry where
  filename : String
  record_count : Nat
  columns : List String
  sample_path : String
  deriving DecidableEq

/-- The five `load_data` outcomes the preparer works from; `none` when
a dataset's export could not be loaded. -/
structure VizInput where
  web_traffic : Option Table
  web_hourly : Option Table
  social : Option Table
  sensor : Option Table
  correlation : Option Table

/-- The `datasets` dict of lines 85-91, in its construction order. -/
def vizDatasets (inp : VizInput) : List (String × Option Table) :=
  [("web_traffic", inp.web_traffic), ("web_hourly", inp.web_hourly),
   ("social", inp.social), ("sensor", inp.sensor),
   ("correlation", inp.correlation)]

/-- The written visualization CSVs and the manifest's `datasets` map:
datasets whose load returned `None` are skipped by both loops
(lines 94-131). -/
structure VizOutputs where
  csvs : List (String × Table)
  manifest : List (String × ManifestEntry)
  deriving DecidableEq

/-- The loaded datasets surviving the `if df is not None` guard, each
already mutated by the per-dataset loop. -/
def prepareProcessed (inp : VizInput) : List (String × Table) :=
  (vizDatasets inp).filterMap (fun p =>
    p.2.map (fun t => (p.1, addDerived p.1 t)))

/-- `prepare_data_for_visualization` from the load outcomes onward:
each loaded dataset is finalized, written as `<name>_data.csv`, and
described in the manifest with its row count and final columns. -/
def prepareOutputs (inp : VizInput) : VizOutputs :=
  { csvs := (prepareProcessed inp).map (fun p =>
      (p.1 ++ "_data.csv", p.2)),
    manifest := (prepareProcessed inp).map (fun p =>
      (p.1,
       { filename := p.1 ++ "_data.csv"
         record_count := p.2.rows.length
         columns := p.2.cols
         sample_path := "data/visualization/" ++ p.1 ++ "_data.csv" })) }

/-! ### Sample inputs used by the witnesses -/

/-- A concrete aggregate table shaped like the endpoint-traffic export
(six columns, two data rows). -/
def sampleExportTbl : Table :=
  { cols := ["date", "endpoint", "total_requests", "error_count",
             "avg_response_time", "unique_visitors"],
    rows := [["2024-01-01", "/home", "2", "1", "1", "2"],
             ["2024-01-02", "/blog", "1", "0", "1", "1"]] }

/-- A concrete one-row per-date web summary. -/
def sampleWebDateRow : WebDateRow :=
  { date := "2024-01-01", total_requests := 2, error_count := 1,
    avg_response_time := 1 }

/-- The fallback correlation row built from `sampleWebDateRow`. -/
def sampleFallbackRow : CorrRow :=
  { date := "2024-01-01", total_requests := 2, error_count := 1,
    avg_response_time := 1, post_count := 100, total_likes := 500,
    total_shares := 200, total_comments := 300, avg_engagement := 50,
    avg_sentiment := 1/2 }

/-- A concrete pipeline run whose web-log input file is missing. -/
def sampleFailRun : PipelineInput :=
  { webInput := .error "No such file: data/raw/logs/web_access_logs.csv"
    socialInput := .ok []
    sensorInput := .ok [] }

/-- The scenario table: two processed web-log rows on 2024-01-01 for
`/home`, with status codes 200 and 404. -/
def scenarioWebDf : List ProcWebRow :=
  [{ timestamp := "2024-01-01 08:30:00", ip_address := "10.0.0.1",
     user_id := "anonymous", method := "GET", endpoint := "/home",
     status_code := 200, response_time := 1, user_agent := "curl",
     date := "2024-01-01", hour := 8, is_error := false },
   { timestamp := "2024-01-01 09:30:00", ip_address := "10.0.0.2",
     user_id := "u1", method := "GET", endpoint := "/home",
     status_code := 404, response_time := 1, user_agent := "curl",
     date := "2024-01-01", hour := 9, is_error := true }]

/-- The per-date web summary of the join scenario: traffic on
2024-01-01 and 2024-01-02. -/
def scenarioWebDaily : List WebDateRow :=
  [{ date := "2024-01-01", total_requests := 3, error_count := 1,
     avg_response_time := 1 },
   { date := "2024-01-02", total_requests := 2, error_count := 0,
     avg_response_time := 1 }]

/-- The per-date social summary of the join scenario: posts on
2024-01-01 only. -/
def scenarioSocialDaily : List SocialDateRow :=
  [{ date := "2024-01-01", post_count := 5, total_likes := 10,
     total_shares := 2, total_comments := 3, avg_engagement := 4,
     avg_sentiment := 0 }]

/-- A concrete raw social post. -/
def sampleSocialRaw : RawSocialRow :=
  { post_id := "p1", user_handle := "alice",
    timestamp := "2024-01-01 10:15:00", content := "hello",
    likes := 10, shares := 2, comments := 3,
    sentiment := "positive", category := "product",
    platform := "twitter" }

/-- The processed form of `sampleSocialRaw`. -/
def sampleSocialProc : ProcSocialRow :=
  { post_id := "p1", user_handle := "alice",
    timestamp := "2024-01-01 10:15:00", content := "hello",
    likes := 10, shares := 2, comments := 3,
    sentiment := "positive", category := "product",
    platform := "twitter", date := "2024-01-01", hour := 10,
    engagement_score := 23, sentiment_score := some 1 }

/-- A concrete raw sensor reading with battery level 20. -/
def sampleSensorRaw : RawSensorRow :=
  { timestamp := "2024-01-01 09:00:00", sensor_id := "SENS-1234",
    sensor_type := "temperature", location := "room1",
    value := 21, battery_level := 20, status := "active" }

/-- The processed form of `sampleSensorRaw`. -/
def sampleSensorProc : ProcSensorRow :=
  { timestamp := "2024-01-01 09:00:00", sensor_id := "SENS-1234",
    sensor_type := "temperature", location := "room1",
    value := 21, battery_level := 20, status := "active",
    date := "2024-01-01", hour := 9, is_active := true,
    battery_category := some "critical" }

/-- A concrete raw web-log row with a missing `user_id`. -/
def sampleWebRaw : RawWebRow :=
  { timestamp := "2024-01-01 08:30:00", ip_address := "10.0.0.1",
    user_id := none, method := "GET", endpoint := "/home",
    status_code := 200, response_time := 1,
    user_agent := "curl" }

/-- The processed form of `sampleWebRaw`. -/
def sampleWebProc : ProcWebRow :=
  { timestamp := "2024-01-01 08:30:00", ip_address := "10.0.0.1",
    user_id := "anonymous", method := "GET", endpoint := "/home",
    status_code := 200, response_time := 1,
    user_agent := "curl", date := "2024-01-01", hour := 8,
    is_error := false }

/-- A concrete loaded table for the visualization witness (one data
row, no `date` column). -/
def sampleVizTbl : Table :=
  { cols := ["total_requests"], rows := [["5"]] }

/-- A visualization run where only the hourly dataset loaded. -/
def sampleVizInput : VizInput :=
  { web_traffic := none, web_hourly := some sampleVizTbl,
    social := none, sensor := none, correlation := none }

/-! ### Claims about the processor transformations -/

/-- C5: for every processed sensor row, `is_active` holds iff
`status = 'active'`; within the generator's battery range 10..100,
`battery_category` is `critical` iff `battery_level ≤ 20` and `high`
iff `battery_level > 80`. -/
theorem sensor_flags_and_buckets (r : RawSensorRow) (p : ProcSensorRow)
    (h : processSensorRow r = some p)
    (hlo : 10 ≤ r.battery_level) (hhi : r.battery_level ≤ 100) :
    (p.is_active = true ↔ r.status = "active")
    ∧ (p.battery_category = some "critical" ↔ r.battery_level ≤ 20)
    ∧ (p.battery_category = some "high" ↔ 80 < r.battery_level) := by
  unfold processSensorRow at h
  cases hp : parseHour r.timestamp with
  | none => simp [hp] at h
  | some n =>
    simp only [hp, Option.bind_eq_bind, Option.some_bind,
      Option.some.injEq] at h
    subst h
    refine ⟨by simp, ?_, ?_⟩ <;>
      · simp only [batteryCategory]
        split_ifs <;> simp_all <;> omega

/-- C5 witness: the boundary row with battery level 20 is bucketed as
critical and flagged active. -/
theorem sensor_flags_and_buckets_witness :
    (sampleSensorProc.is_active = true ↔ sampleSensorRaw.status = "active")
    ∧ (sampleSensorProc.battery_category = some "critical" ↔
        sampleSensorRaw.battery_level ≤ 20)
    ∧ (sampleSensorProc.battery_category = some "high" ↔
        80 < sampleSensorRaw.battery_level) :=
  sensor_flags_and_buckets sampleSensorRaw sampleSensorProc
    (by decide) (by decide) (by decide)

/-- C6: every processed social row's engagement score is
`likes + 2*shares + 3*comments`. -/
theorem engagement_score_formula (r : RawSocialRow) (p : ProcSocialRow)
    (h : processSocialRow r = some p) :
    p.engagement_score = r.likes + 2 * r.shares + 3 * r.comments := by
  unfold processSocialRow at h
  cases hp : parseHour r.timestamp with
  | none => simp [hp] at h
  | some n =>
    simp only [hp, Option.bind_eq_bind, Option.some_bind,
      Option.some.injEq] at h
    subst h
    show r.likes + r.shares * 2 + r.comments * 3 = _
    ring

/-- C6 witness: the sample post with 10 likes, 2 shares, 3 comments
scores 10 + 2*2 + 3*3. -/
theorem engagement_score_formula_witness :
    sampleSocialProc.engagement_score =
      sampleSocialRaw.likes + 2 * sampleSocialRaw.shares +
        3 * sampleSocialRaw.comments :=
  engagement_score_formula sampleSocialRaw sampleSocialProc (by decide)

/-- C7: processing a raw web-log row turns a missing `user_id` into the
literal `'anonymous'` and keeps a present `user_id` unchanged. -/
theorem user_id_sentinel (r : RawWebRow) (p : ProcWebRow)
    (h : processWebRow r = some p) :
    (r.user_id = none → p.user_id = "anonymous")
    ∧ ∀ u, r.user_id = some u → p.user_id = u := by
  unfold processWebRow at h
  cases hp : parseHour r.timestamp with
  | none => simp [hp] at h
  | some n =>
    simp only [hp, Option.bind_eq_bind, Option.some_bind,
      Option.some.injEq] at h
    subst h
    constructor
    · intro hu; simp [hu]
    · intro u hu; simp [hu]

/-- C7 witness: the sample row with a missing `user_id` is processed to
`user_id = 'anonymous'`. -/
theorem user_id_sentinel_witness :
    sampleWebProc.user_id = "anonymous" :=
  (user_id_sentinel sampleWebRaw sampleWebProc (by decide)).1 (by decide)

/-! ### Claims about the aggregator's export/reload boundary and the
correlation fallback -/

/-- C1: writing an aggregate headerless and reading it back with
`load_data`'s hardcoded name list preserves the row count and
reproduces the documented (written) column list, for every aggregate
type. -/
theorem export_reload_roundtrip (a : AggType) (t : Table)
    (h : t.cols = writtenColumns a) :
    (readWithNames (loadCols a) (toHeaderlessFile t)).rows.length =
      t.rows.length
    ∧ (readWithNames (loadCols a) (toHeaderlessFile t)).cols =
        writtenColumns a := by
  refine ⟨rfl, ?_⟩
  cases a <;> rfl

/-- C1 witness: the round trip at the endpoint-traffic aggregate on a
concrete two-row table. -/
theorem export_reload_roundtrip_witness :
    (readWithNames (loadCols AggType.webTrafficByEndpoint)
        (toHeaderlessFile sampleExportTbl)).rows.length =
      sampleExportTbl.rows.length
    ∧ (readWithNames (loadCols AggType.webTrafficByEndpoint)
        (toHeaderlessFile sampleExportTbl)).cols =
        writtenColumns AggType.webTrafficByEndpoint :=
  export_reload_roundtrip AggType.webTrafficByEndpoint sampleExportTbl
    (by decide)

/-- C4: when the correlation merge raises, the aggregator substitutes
the dummy table: one row per `web_daily` row, with the social-side
columns holding the constants 100/500/200/300/50/0.5. -/
theorem correlation_fallback_shape (w : List WebDateRow) (e : String) :
    (correlationStep w (.error e)).length = w.length
    ∧ ∀ r ∈ correlationStep w (.error e),
        r.post_count = 100 ∧ r.total_likes = 500
        ∧ r.total_shares = 200 ∧ r.total_comments = 300
        ∧ r.avg_engagement = 50 ∧ r.avg_sentiment = 1/2 := by
  constructor
  · simp [correlationStep, fallbackCorrelation]
  · intro r hr
    simp only [correlationStep, fallbackCorrelation, List.mem_map] at hr
    obtain ⟨wr, -, rfl⟩ := hr
    exact ⟨rfl, rfl, rfl, rfl, rfl, rfl⟩

/-- C4 witness: the fallback on a one-row web summary carries the fixed
dummy values. -/
theorem correlation_fallback_shape_witness :
    sampleFallbackRow.post_count = 100
    ∧ sampleFallbackRow.total_likes = 500
    ∧ sampleFallbackRow.total_shares = 200
    ∧ sampleFallbackRow.total_comments = 300
    ∧ sampleFallbackRow.avg_engagement = 50
    ∧ sampleFallbackRow.avg_sentiment = 1/2 :=
  (correlation_fallback_shape [sampleWebDateRow] "merge failed").2
    sampleFallbackRow (by simp [correlationStep, fallbackCorrelation,
      sampleWebDateRow, sampleFallbackRow])

/-! ### Claims about the processing script's failure policy -/

/-- C8: each per-dataset processing function catches its exceptions:
a failing input read yields the flag `False` rather than a propagated
exception, the flag is `True` exactly when the function body succeeded,
and all three per-dataset steps appear in every run's trace. -/
theorem per_dataset_errors_contained (inp : PipelineInput)
    (e : String) :
    process_web_logs (.error e) = false
    ∧ process_social_data (.error e) = false
    ∧ process_sensor_data (.error e) = false
    ∧ (process_web_logs inp.webInput = true ↔
        (processWebLogsBody inp.webInput).isOk = true)
    ∧ (process_social_data inp.socialInput = true ↔
        (processSocialBody inp.socialInput).isOk = true)
    ∧ (process_sensor_data inp.sensorInput = true ↔
        (processSensorBody inp.sensorInput).isOk = true)
    ∧ Step.webLogs ∈ mainTrace inp
    ∧ Step.social ∈ mainTrace inp
    ∧ Step.sensor ∈ mainTrace inp := by
  refine ⟨rfl, rfl, rfl, ?_, ?_, ?_, ?_, ?_, ?_⟩
  · cases h : processWebLogsBody inp.webInput <;>
      simp [process_web_logs, h, Except.isOk, Except.toBool]
  · cases h : processSocialBody inp.socialInput <;>
      simp [process_social_data, h, Except.isOk, Except.toBool]
  · cases h : processSensorBody inp.sensorInput <;>
      simp [process_sensor_data, h, Except.isOk, Except.toBool]
  all_goals simp [mainTrace]

/-- C9: if any per-dataset flag is false, the upload step is not in the
run's trace and the skip message is. -/
theorem upload_gated_on_flags (inp : PipelineInput)
    (h : process_web_logs inp.webInput = false
      ∨ process_social_data inp.socialInput = false
      ∨ process_sensor_data inp.sensorInput = false) :
    Step.upload ∉ mainTrace inp ∧ Step.skipMsg ∈ mainTrace inp := by
  unfold mainTrace
  rcases h with h | h | h <;> simp [h]

/-- C9 witness: the run with a missing web-log file skips the upload. -/
theorem upload_gated_on_flags_witness :
    Step.upload ∉ mainTrace sampleFailRun
    ∧ Step.skipMsg ∈ mainTrace sampleFailRun :=
  upload_gated_on_flags sampleFailRun (Or.inl rfl)

/-! ### Claims about the web-traffic aggregation -/

/-- C2: in the per-(date, endpoint) aggregate of a processed web-log
table (where `is_error` agrees with `status_code >= 400`), every group
key has a row whose `total_requests` is the group's size and whose
`error_count` is the number of group rows with `status_code >= 400`. -/
theorem web_daily_group_counts (df : List ProcWebRow)
    (hinv : ∀ r ∈ df, r.is_error = decide (400 ≤ r.status_code))
    (k : String × String) (hk : k ∈ webEndpointKeys df) :
    ∃ row ∈ webTrafficDaily df,
      row.date = k.1 ∧ row.endpoint = k.2
      ∧ row.total_requests = (webEndpointGroup df k).length
      ∧ row.error_count =
          ((webEndpointGroup df k).filter
            (fun r => decide (400 ≤ r.status_code))).length := by
  refine ⟨_, List.mem_map_of_mem _ hk, rfl, rfl, rfl, ?_⟩
  show ((webEndpointGroup df k).filter (fun r => r.is_error)).length = _
  congr 1
  refine List.filter_congr ?_
  intro r hr
  exact hinv r (List.mem_of_mem_filter hr)

/-- C2 witness: the scenario aggregate row for (2024-01-01, /home) has
`total_requests = 2` and `error_count = 1`. -/
theorem web_daily_group_counts_witness :
    ∃ row ∈ webTrafficDaily scenarioWebDf,
      row.date = "2024-01-01" ∧ row.endpoint = "/home"
      ∧ row.total_requests = 2 ∧ row.error_count = 1 := by
  obtain ⟨row, hm, h1, h2, h3, h4⟩ :=
    web_daily_group_counts scenarioWebDf (by decide)
      ("2024-01-01", "/home") (by decide)
  exact ⟨row, hm, h1, h2, by rw [h3]; decide, by rw [h4]; decide⟩

/-! ### Claims about the correlation join -/

/-- In a per-date summary with pairwise-distinct dates, filtering for
one date keeps exactly one row when the date occurs and none
otherwise. -/
theorem social_filter_date_length (s : List SocialDateRow) (d : String)
    (hs : (s.map (fun r => r.date)).Nodup) :
    (s.filter (fun r => r.date = d)).length =
      if d ∈ s.map (fun r => r.date) then 1 else 0 := by
  induction s with
  | nil => simp
  | cons a s ih =>
    simp only [List.map_cons, List.nodup_cons] at hs
    obtain ⟨ha, hs⟩ := hs
    by_cases hd : a.date = d
    · have hd2 : d ∉ s.map (fun r => r.date) := hd ▸ ha
      simp [List.filter_cons, hd, ih hs, hd2]
    · have hd2 : ¬d = a.date := fun h => hd h.symm
      simp [List.filter_cons, hd, ih hs, hd2]

/-- C3: the correlation table is the inner join on date: when both
per-date summaries have pairwise-distinct dates, it contains exactly
one row for each date present in both tables and none for any other
date. -/
theorem correlation_join_row_per_date (w : List WebDateRow)
    (s : List SocialDateRow)
    (hw : (w.map (fun r => r.date)).Nodup)
    (hs : (s.map (fun r => r.date)).Nodup) (d : String) :
    ((mergeOnDate w s).filter (fun r => r.date = d)).length =
      if d ∈ w.map (fun r => r.date) ∧ d ∈ s.map (fun r => r.date)
      then 1 else 0 := by
  induction w with
  | nil => simp [mergeOnDate]
  | cons wr w ih =>
    simp only [List.map_cons, List.nodup_cons] at hw
    obtain ⟨ha, hw⟩ := hw
    have hmerge : mergeOnDate (wr :: w) s =
        ((s.filter (fun sr => sr.date = wr.date)).map (mkCorr wr)) ++
          mergeOnDate w s := rfl
    rw [hmerge, List.filter_append, List.length_append, ih hw]
    by_cases hd : wr.date = d
    · subst hd
      have hfront :
          ((s.filter (fun sr => sr.date = wr.date)).map
              (mkCorr wr)).filter (fun r => r.date = wr.date) =
            (s.filter (fun sr => sr.date = wr.date)).map (mkCorr wr) := by
        refine List.filter_eq_self.mpr ?_
        intro a hma
        obtain ⟨sr, -, rfl⟩ := List.mem_map.mp hma
        simp [mkCorr]
      rw [hfront, List.length_map,
        social_filter_date_length s wr.date hs]
      simp [ha]
    · have hd2 : ¬d = wr.date := fun h => hd h.symm
      have hfront :
          ((s.filter (fun sr => sr.date = wr.date)).map
              (mkCorr wr)).filter (fun r => r.date = d) = [] := by
        refine List.filter_eq_nil_iff.mpr ?_
        intro a hma
        obtain ⟨sr, -, rfl⟩ := List.mem_map.mp hma
        simp [mkCorr, hd]
      rw [hfront]
      simp [hd2]

/-- C3 witness: the scenario join has exactly one row, on 2024-01-01,
and none on 2024-01-02. -/
theorem correlation_join_row_per_date_witness :
    ((mergeOnDate scenarioWebDaily scenarioSocialDaily).filter
        (fun r => r.date = "2024-01-01")).length = 1
    ∧ ((mergeOnDate scenarioWebDaily scenarioSocialDaily).filter
        (fun r => r.date = "2024-01-02")).length = 0
    ∧ (mergeOnDate scenarioWebDaily scenarioSocialDaily).length = 1 := by
  refine ⟨?_, ?_, by decide⟩
  · exact (correlation_join_row_per_date scenarioWebDaily
      scenarioSocialDaily (by decide) (by decide) "2024-01-01").trans
      (by decide)
  · exact (correlation_join_row_per_date scenarioWebDaily
      scenarioSocialDaily (by decide) (by decide) "2024-01-02").trans
      (by decide)

/-! ### Claims about the visualization preparer -/

/-- Appending the derived columns does not change the row count. -/
theorem addDerived_rows_length (name : String) (t : Table) :
    (addDerived name t).rows.length = t.rows.length := by
  unfold addDerived
  by_cases h : "date" ∈ t.cols <;> simp [h]

/-- Characterization of the datasets surviving the `None` guard. -/
theorem mem_prepareProcessed (inp : VizInput) (q : String × Table) :
    q ∈ prepareProcessed inp ↔
      (∃ t, inp.web_traffic = some t
        ∧ q = ("web_traffic", addDerived "web_traffic" t))
      ∨ (∃ t, inp.web_hourly = some t
        ∧ q = ("web_hourly", addDerived "web_hourly" t))
      ∨ (∃ t, inp.social = some t
        ∧ q = ("social", addDerived "social" t))
      ∨ (∃ t, inp.sensor = some t
        ∧ q = ("sensor", addDerived "sensor" t))
      ∨ (∃ t, inp.correlation = some t
        ∧ q = ("correlation", addDerived "correlation" t)) := by
  simp only [prepareProcessed, vizDatasets, List.mem_filterMap,
    List.mem_cons, List.not_mem_nil, or_false, Option.map_eq_some']
  constructor
  · rintro ⟨a, (rfl | rfl | rfl | rfl | rfl), t, ht, rfl⟩
    · exact Or.inl ⟨t, ht, rfl⟩
    · exact Or.inr (Or.inl ⟨t, ht, rfl⟩)
    · exact Or.inr (Or.inr (Or.inl ⟨t, ht, rfl⟩))
    · exact Or.inr (Or.inr (Or.inr (Or.inl ⟨t, ht, rfl⟩)))
    · exact Or.inr (Or.inr (Or.inr (Or.inr ⟨t, ht, rfl⟩)))
  · rintro (⟨t, ht, rfl⟩ | ⟨t, ht, rfl⟩ | ⟨t, ht, rfl⟩ |
      ⟨t, ht, rfl⟩ | ⟨t, ht, rfl⟩)
    · exact ⟨_, Or.inl rfl, t, ht, rfl⟩
    · exact ⟨_, Or.inr (Or.inl rfl), t, ht, rfl⟩
    · exact ⟨_, Or.inr (Or.inr (Or.inl rfl)), t, ht, rfl⟩
    · exact ⟨_, Or.inr (Or.inr (Or.inr (Or.inl rfl))), t, ht, rfl⟩
    · exact ⟨_, Or.inr (Or.inr (Or.inr (Or.inr rfl))), t, ht, rfl⟩

/-- Each surviving dataset yields its `<name>_data.csv` file. -/
theorem csv_of_processed (inp : VizInput) (q : String × Table)
    (hq : q ∈ prepareProcessed inp) :
    (q.1 ++ "_data.csv", q.2) ∈ (prepareOutputs inp).csvs := by
  simp only [prepareOutputs, List.mem_map]
  exact ⟨q, hq, rfl⟩

/-- Each surviving dataset yields its manifest entry. -/
theorem manifest_of_processed (inp : VizInput) (q : String × Table)
    (hq : q ∈ prepareProcessed inp) :
    (q.1, { filename := q.1 ++ "_data.csv",
            record_count := q.2.rows.length,
            columns := q.2.cols,
            sample_path := "data/visualization/" ++ q.1 ++ "_data.csv" })
      ∈ (prepareOutputs inp).manifest := by
  simp only [prepareOutputs, List.mem_map]
  exact ⟨q, hq, rfl⟩

/-- C10: a dataset whose load returned `None` is silently omitted from
the visualization outputs (no `<name>_data.csv`, no manifest entry),
while a loaded dataset is both written as a CSV and listed in the
manifest with `record_count` equal to its row count and `columns` equal
to its final column list. -/
theorem viz_dataset_inclusion (inp : VizInput) (n : String) :
    ((n, (none : Option Table)) ∈ vizDatasets inp →
      (∀ p ∈ (prepareOutputs inp).csvs, p.1 ≠ n ++ "_data.csv")
      ∧ ∀ q ∈ (prepareOutputs inp).manifest, q.1 ≠ n)
    ∧ ∀ t : Table, (n, some t) ∈ vizDatasets inp →
      ((n ++ "_data.csv", addDerived n t) ∈ (prepareOutputs inp).csvs
      ∧ (n, { filename := n ++ "_data.csv",
              record_count := t.rows.length,
              columns := (addDerived n t).cols,
              sample_path :=
                "data/visualization/" ++ n ++ "_data.csv" })
          ∈ (prepareOutputs inp).manifest) := by
  constructor
  · intro h
    simp only [vizDatasets, List.mem_cons, Prod.mk.injEq,
      List.not_mem_nil, or_false] at h
    rcases h with ⟨rfl, h⟩ | ⟨rfl, h⟩ | ⟨rfl, h⟩ | ⟨rfl, h⟩ | ⟨rfl, h⟩ <;>
    · constructor
      · intro p hp
        simp only [prepareOutputs, List.mem_map] at hp
        obtain ⟨q, hq, rfl⟩ := hp
        rw [mem_prepareProcessed] at hq
        rcases hq with ⟨t2, ht2, rfl⟩ | ⟨t2, ht2, rfl⟩ |
            ⟨t2, ht2, rfl⟩ | ⟨t2, ht2, rfl⟩ | ⟨t2, ht2, rfl⟩ <;>
          first
          | (rw [← h] at ht2; simp at ht2)
          | simp
      · intro q hq
        simp only [prepareOutputs, List.mem_map] at hq
        obtain ⟨q2, hq2, rfl⟩ := hq
        rw [mem_prepareProcessed] at hq2
        rcases hq2 with ⟨t2, ht2, rfl⟩ | ⟨t2, ht2, rfl⟩ |
            ⟨t2, ht2, rfl⟩ | ⟨t2, ht2, rfl⟩ | ⟨t2, ht2, rfl⟩ <;>
          first
          | (rw [← h] at ht2; simp at ht2)
          | simp
  · intro t ht
    simp only [vizDatasets, List.mem_cons, Prod.mk.injEq,
      List.not_mem_nil, or_false] at ht
    rcases ht with ⟨rfl, ht⟩ | ⟨rfl, ht⟩ | ⟨rfl, ht⟩ |
        ⟨rfl, ht⟩ | ⟨rfl, ht⟩ <;>
    · have hmem : _ ∈ prepareProcessed inp :=
        (mem_prepareProcessed inp _).mpr (by
          first
          | exact Or.inl ⟨t, ht.symm, rfl⟩
          | exact Or.inr (Or.inl ⟨t, ht.symm, rfl⟩)
          | exact Or.inr (Or.inr (Or.inl ⟨t, ht.symm, rfl⟩))
          | exact Or.inr (Or.inr (Or.inr (Or.inl ⟨t, ht.symm, rfl⟩)))
          | exact Or.inr (Or.inr (Or.inr (Or.inr ⟨t, ht.symm, rfl⟩))))
      refine ⟨csv_of_processed inp _ hmem, ?_⟩
      simpa [addDerived_rows_length] using
        manifest_of_processed inp _ hmem

/-- C10 witness: in a run where only the hourly dataset loaded, its CSV
is written and its manifest entry records one row and the final column
list. -/
theorem viz_dataset_inclusion_witness :
    ("web_hourly" ++ "_data.csv", addDerived "web_hourly" sampleVizTbl)
        ∈ (prepareOutputs sampleVizInput).csvs
    ∧ ("web_hourly",
        { filename := "web_hourly" ++ "_data.csv",
          record_count := sampleVizTbl.rows.length,
          columns := (addDerived "web_hourly" sampleVizTbl).cols,
          sample_path :=
            "data/visualization/" ++ "web_hourly" ++ "_data.csv" })
        ∈ (prepareOutputs sampleVizInput).manifest :=
  (viz_dataset_inclusion sampleVizInput "web_hourly").2 sampleVizTbl
    (by decide)

end BigDataPipeline
